import Mathlib

/-!
Shallow embedding of the data-access and mutation core of the
NextFinancialDashboard repository (files app/lib/data.ts, app/lib/actions.ts
and auth.ts), together with theorems settling the frozen claims about it.

Modelling conventions:
* The database is explicit state: a list of rows per table.  Each embedded
  operation takes a dbFails flag that models the only failure mode visible in
  the source, namely the awaited SQL statement throwing; the try/catch logic of
  the source then determines the result.
* JS numbers coming from the (decimal) form strings are modelled exactly as
  rationals; monetary amounts at rest are integer cents, per the data model.
* Fallible operations return Except String with the exact wrapped message the
  source throws or returns.
-/

/-! ## Data model (app/lib/definitions.ts shapes used by the core) -/

/-- Row of the customers table: customers(id, name, email, image_url). -/
structure Customer where
  id : String
  name : String
  email : String
  image_url : String
  deriving DecidableEq

/-- Row of the invoices table at rest: invoices(id, customer_id, amount,
status, date); amount is an integer number of cents. -/
structure InvoiceRow where
  id : String
  customer_id : String
  amount : ℤ
  status : String
  date : String
  deriving DecidableEq

/-- Row of the users table: users(id, name, email, password). -/
structure User where
  id : String
  name : String
  email : String
  password : String
  deriving DecidableEq

/-! ## Character-level helpers for the ILIKE pattern matches -/

/-- ASCII lower-casing of one character, as applied by the case-insensitive
ILIKE comparisons on the ASCII data of this application. -/
def lowerChar (c : Char) : Char :=
  if c.isUpper then Char.ofNat (c.toNat + 32) else c

/-- Lower-case a character list. -/
def lowerList (l : List Char) : List Char := l.map lowerChar

/-- Whether the first list starts with the second list. -/
def startsWithL : List Char → List Char → Bool
  | _, [] => true
  | [], _ :: _ => false
  | a :: as, b :: bs => a == b && startsWithL as bs

/-- Whether the needle occurs as a contiguous sublist of the haystack. -/
def containsSubL (needle : List Char) : List Char → Bool
  | [] => needle.isEmpty
  | a :: t => startsWithL (a :: t) needle || containsSubL needle t

/-- Embeds the SQL predicate: hay ILIKE the pattern percent-query-percent,
i.e. hay contains the query case-insensitively. -/
def sqlIlikeContains (hay q : String) : Bool :=
  containsSubL (lowerList q.data) (lowerList hay.data)

/-! ## Query layer (app/lib/data.ts) -/

/-- The SQL inner join of invoices with customers on
invoices.customer_id = customers.id, projected onto the columns selected by
fetchFilteredInvoices and fetchInvoicesPages. -/
structure JoinedInvoice where
  id : String
  amount : ℤ
  date : String
  status : String
  name : String
  email : String
  image_url : String
  deriving DecidableEq

/-- JOIN customers ON invoices.customer_id = customers.id. -/
def joinInvoicesCustomers (invoices : List InvoiceRow) (customers : List Customer) :
    List JoinedInvoice :=
  invoices.flatMap fun i =>
    (customers.filter fun c => c.id == i.customer_id).map fun c =>
      ⟨i.id, i.amount, i.date, i.status, c.name, c.email, c.image_url⟩

/-- The shared WHERE clause of fetchFilteredInvoices and fetchInvoicesPages:
customer name, email, amount cast to text, date cast to text or status
case-insensitively contains the query. -/
def invoiceMatches (query : String) (r : JoinedInvoice) : Bool :=
  sqlIlikeContains r.name query || sqlIlikeContains r.email query ||
    sqlIlikeContains (toString r.amount) query || sqlIlikeContains r.date query ||
    sqlIlikeContains r.status query

/-- The constant ITEMS_PER_PAGE = 6 of app/lib/data.ts. -/
def ITEMS_PER_PAGE : ℕ := 6

/-- fetchInvoicesPages(query): counts the joined rows matching the query and
returns Math.ceil(count / ITEMS_PER_PAGE); a database failure is caught and
re-thrown as the wrapped message. -/
def fetchInvoicesPages (dbFails : Bool) (invoices : List InvoiceRow)
    (customers : List Customer) (query : String) : Except String ℕ :=
  if dbFails then .error "Failed to fetch total number of invoices."
  else
    let count := ((joinInvoicesCustomers invoices customers).filter
      (invoiceMatches query)).length
    .ok (Int.toNat ⌈(count : ℚ) / (ITEMS_PER_PAGE : ℚ)⌉)

/-- Insertion step for ORDER BY invoices.date DESC. -/
def insertByDateDesc (a : JoinedInvoice) : List JoinedInvoice → List JoinedInvoice
  | [] => [a]
  | b :: t => if b.date ≤ a.date then a :: b :: t else b :: insertByDateDesc a t

/-- ORDER BY invoices.date DESC, modelled as an insertion sort (the SQL
engine guarantees only the ordering, which any sort realises). -/
def sortByDateDesc : List JoinedInvoice → List JoinedInvoice
  | [] => []
  | a :: t => insertByDateDesc a (sortByDateDesc t)

/-- fetchFilteredInvoices(query, currentPage): offset = (currentPage - 1) *
ITEMS_PER_PAGE, then the matching joined rows ordered by date descending with
LIMIT ITEMS_PER_PAGE OFFSET offset.  A negative offset makes the database
statement itself fail (OFFSET must not be negative), and any statement failure
is caught and re-thrown as the wrapped message. -/
def fetchFilteredInvoices (dbFails : Bool) (invoices : List InvoiceRow)
    (customers : List Customer) (query : String) (currentPage : ℤ) :
    Except String (List JoinedInvoice) :=
  let offset : ℤ := (currentPage - 1) * (ITEMS_PER_PAGE : ℤ)
  if dbFails ∨ offset < 0 then .error "Failed to fetch invoices."
  else
    .ok (((sortByDateDesc ((joinInvoicesCustomers invoices customers).filter
      (invoiceMatches query))).drop offset.toNat).take ITEMS_PER_PAGE)

/-- Result shape of fetchInvoiceById: the selected columns with amount
converted from cents to decimal dollars. -/
structure InvoiceFormRow where
  id : String
  customer_id : String
  amount : ℚ
  status : String
  deriving DecidableEq

/-- fetchInvoiceById(id): selects the invoice rows with that id, divides the
amount by 100, and returns the first row of the mapped result, which is
undefined (none) when no row matches. -/
def fetchInvoiceById (dbFails : Bool) (invoices : List InvoiceRow) (id : String) :
    Except String (Option InvoiceFormRow) :=
  if dbFails then .error "Failed to fetch invoice."
  else
    .ok (((invoices.filter fun r => r.id == id).map fun r =>
      (⟨r.id, r.customer_id, (r.amount : ℚ) / 100, r.status⟩ : InvoiceFormRow)).head?)

/-- Modelled from the spec: formatCurrency lives in app/lib/utils.ts, which is
not among the provided sources; the spec describes the formatting helpers as
pure functions converting cents to currency strings. -/
def formatCurrency (cents : ℚ) : String := "$" ++ toString (cents / 100)

/-- SUM(CASE WHEN status = s THEN amount ELSE 0 END) FROM invoices: the SQL
SUM aggregate is NULL over an empty table and otherwise sums the per-row
conditional values. -/
def sumAmountsWithStatus (invoices : List InvoiceRow) (status : String) : Option ℤ :=
  if invoices.isEmpty then none
  else some ((invoices.map fun r => if r.status == status then r.amount else 0).sum)

/-- Result shape of fetchCardData. -/
structure CardData where
  numberOfCustomers : ℕ
  numberOfInvoices : ℕ
  totalPaidInvoices : String
  totalPendingInvoices : String
  deriving DecidableEq

/-- fetchCardData(): COUNT of invoices and customers, and the paid and pending
SUM aggregates null-coalesced to zero and currency-formatted. -/
def fetchCardData (dbFails : Bool) (invoices : List InvoiceRow)
    (customers : List Customer) : Except String CardData :=
  if dbFails then .error "Failed to fetch card data."
  else
    .ok ⟨customers.length, invoices.length,
      formatCurrency (((sumAmountsWithStatus invoices "paid").getD 0 : ℤ) : ℚ),
      formatCurrency (((sumAmountsWithStatus invoices "pending").getD 0 : ℤ) : ℚ)⟩

/-! ## Form validation (the zod FormSchema of app/lib/actions.ts) -/

/-- The raw form fields read by FormData.get: a missing field is none. -/
structure RawForm where
  customerId : Option String
  amount : Option String
  status : Option String
  deriving DecidableEq

/-- The flattened field-error map returned on validation failure. -/
structure FieldErrors where
  customerId : List String
  amount : List String
  status : List String
  deriving DecidableEq

/-- The data of a successfully parsed form. -/
structure ParsedInvoiceForm where
  customerId : String
  amount : ℚ
  status : String
  deriving DecidableEq

/-- Numeric value of a digit list, most significant first. -/
def digitsVal (l : List Char) : ℕ :=
  l.foldl (fun a c => a * 10 + (c.toNat - 48)) 0

/-- Exact value of an unsigned decimal literal: digits, optionally with a
decimal point; anything else is NaN (none). -/
def parseUnsignedDec (l : List Char) : Option ℚ :=
  match l.splitOn '.' with
  | [d] => if d ≠ [] ∧ d.all Char.isDigit then some ((digitsVal d : ℚ)) else none
  | [d, f] =>
    if (d ≠ [] ∨ f ≠ []) ∧ d.all Char.isDigit ∧ f.all Char.isDigit then
      some ((digitsVal d : ℚ) + (digitsVal f : ℚ) / ((10 : ℚ) ^ f.length))
    else none
  | _ => none

/-- Models the JS Number() coercion performed by z.coerce.number() on the
form values: null and the empty string coerce to 0, a signed decimal literal
to its exact value, anything else to NaN (none). -/
def jsNumber : Option String → Option ℚ
  | none => some 0
  | some s =>
    match s.data with
    | [] => some 0
    | '-' :: rest => (parseUnsignedDec rest).map Neg.neg
    | '+' :: rest => parseUnsignedDec rest
    | l => parseUnsignedDec l

/-- Error list of a field validation outcome, as flattened into fieldErrors. -/
def zodErrors {α : Type} : Except (List String) α → List String
  | .error e => e
  | .ok _ => []

/-- z.string with invalid_type_error: only a missing (null) value fails. -/
def validateCustomerId : Option String → Except (List String) String
  | none => .error ["Please select a customer."]
  | some s => .ok s

/-- z.coerce.number().gt(0, ...): coerce, then require the value to exceed 0. -/
def validateAmount (v : Option String) : Except (List String) ℚ :=
  match jsNumber v with
  | none => .error ["Expected number, received nan"]
  | some q =>
    if 0 < q then .ok q
    else .error ["Please enter an amount greater than $0."]

/-- z.enum of pending and paid with invalid_type_error. -/
def validateStatus : Option String → Except (List String) String
  | none => .error ["Please select an invoice status."]
  | some s =>
    if s = "pending" ∨ s = "paid" then .ok s
    else .error ["Invalid enum value. Expected pending or paid."]

/-- CreateInvoice.safeParse / UpdateInvoice.safeParse: all three fields must
validate, otherwise the flattened field-error map is produced. -/
def safeParseInvoiceForm (f : RawForm) : Except FieldErrors ParsedInvoiceForm :=
  match validateCustomerId f.customerId, validateAmount f.amount,
      validateStatus f.status with
  | .ok c, .ok a, .ok s => .ok ⟨c, a, s⟩
  | c, a, s => .error ⟨zodErrors c, zodErrors a, zodErrors s⟩

/-! ## Mutation layer (app/lib/actions.ts) -/

/-- Invoice row as written by the mutation layer; the inserted amount is the
exact value the application sends. -/
structure InvoiceRecord where
  id : String
  customer_id : String
  amount : ℚ
  status : String
  date : String
  deriving DecidableEq

/-- Observable outcome of a create or update server action. -/
inductive ActionOutcome where
  | formError (errors : FieldErrors) (message : String)
  | dbMessage (message : String)
  | redirected (path : String)
  deriving DecidableEq

/-- Full effect of a create or update call: its outcome, the invoices table
afterwards, how many SQL statements were attempted, and whether
revalidatePath ran. -/
structure MutationResult where
  outcome : ActionOutcome
  invoices : List InvoiceRecord
  sqlIssued : ℕ
  revalidated : Bool
  deriving DecidableEq

/-- createInvoice(prevState, formData): validate, convert the amount to cents
by multiplying by 100, stamp the date (the today parameter stands for the
date-only prefix of the current ISO timestamp), insert one row, then
revalidate and redirect; validation failure returns the field errors with no
database statement, a database failure returns the generic message. -/
def createInvoice (dbFails : Bool) (today : String) (newId : String)
    (invoices : List InvoiceRecord) (form : RawForm) : MutationResult :=
  match safeParseInvoiceForm form with
  | .error errs =>
    ⟨.formError errs "Missing Fields. Failed to Create Invoice.", invoices, 0, false⟩
  | .ok p =>
    let amountInCents := p.amount * 100
    let date := today
    if dbFails then
      ⟨.dbMessage "Database Error: Failed to Create Invoice.", invoices, 1, false⟩
    else
      ⟨.redirected "/dashboard/invoices",
        invoices ++ [⟨newId, p.customerId, amountInCents, p.status, date⟩], 1, true⟩

/-- updateInvoice(id, prevState, formData): same validation as create, then
UPDATE of the row with that id setting customer_id, amount in cents and
status, then revalidate and redirect. -/
def updateInvoice (dbFails : Bool) (id : String) (invoices : List InvoiceRecord)
    (form : RawForm) : MutationResult :=
  match safeParseInvoiceForm form with
  | .error errs =>
    ⟨.formError errs "Missing Fields. Failed to Update Invoice.", invoices, 0, false⟩
  | .ok p =>
    let amountInCents := p.amount * 100
    if dbFails then
      ⟨.dbMessage "Database Error: Failed to Update Invoice.", invoices, 1, false⟩
    else
      ⟨.redirected "/dashboard/invoices",
        invoices.map fun r =>
          if r.id = id then ⟨r.id, p.customerId, amountInCents, p.status, r.date⟩ else r,
        1, true⟩

/-- Full effect of deleteInvoice: the returned message, the invoices table
afterwards, and whether revalidatePath or a redirect happened. -/
structure DeleteResult where
  message : String
  invoices : List InvoiceRecord
  revalidated : Bool
  redirected : Bool
  deriving DecidableEq

/-- deleteInvoice(id): DELETE FROM invoices WHERE id = id, then revalidate and
return a confirmation message; a database failure is reported as a returned
message with no revalidation and no redirect (the function never throws and
never redirects). -/
def deleteInvoice (dbFails : Bool) (invoices : List InvoiceRecord) (id : String) :
    DeleteResult :=
  if dbFails then ⟨"Database Error: Failed to Delete Invoice.", invoices, false, false⟩
  else ⟨"Deleted Invoice", invoices.filter (fun r => !(r.id == id)), true, false⟩

/-! ## Authentication (auth.ts and the authenticate action) -/

/-- The raw credentials object passed to the authorize callback. -/
structure Credentials where
  email : Option String
  password : Option String
  deriving DecidableEq

/-- Models the email-format check of z.string().email() (the exact regular
expression lives inside the zod library, external to this repository): a
nonempty local part, one at-sign, and a dot-separated domain of nonempty
labels. -/
def zodIsEmail (s : String) : Bool :=
  match s.data.splitOn '@' with
  | [lp, domain] =>
    !lp.isEmpty && !domain.isEmpty &&
      (domain.splitOn '.').length ≥ 2 && (domain.splitOn '.').all (fun l => !l.isEmpty)
  | _ => false

/-- The credentials schema of authorize: email format and password length at
least 6; success yields the parsed pair. -/
def parseCredentials (c : Credentials) : Option (String × String) :=
  match c.email, c.password with
  | some e, some p => if zodIsEmail e ∧ 6 ≤ p.length then some (e, p) else none
  | _, _ => none

/-- getUser(email): single-row SELECT from users by email; a statement failure
is caught and re-thrown as the wrapped message. -/
def getUser (dbFails : Bool) (users : List User) (email : String) :
    Except String (Option User) :=
  if dbFails then .error "Failed to fetch user."
  else .ok (users.filter fun u => u.email == email).head?

/-- The authorize callback: on schema success look the user up by email,
return null when absent, otherwise compare the supplied password against the
stored hash with bcrypt.compare (passed in as bcryptCompare, since the hash
comparison is external) and return the user only on a match; on schema
failure return null.  The wrapped getUser error is not caught here. -/
def authorize (bcryptCompare : String → String → Bool) (dbFails : Bool)
    (users : List User) (c : Credentials) : Except String (Option User) :=
  match parseCredentials c with
  | none => .ok none
  | some (email, password) =>
    match getUser dbFails users email with
    | .error e => .error e
    | .ok none => .ok none
    | .ok (some user) =>
      if bcryptCompare password user.password then .ok (some user) else .ok none

/-- What the awaited signIn call inside authenticate does: succeed, throw an
AuthError carrying its type string, or throw some other error. -/
inductive SignInOutcome where
  | success
  | authError (ty : String)
  | otherError (message : String)
  deriving DecidableEq

/-- Observable behaviour of authenticate: a returned value (undefined on
success, a user-facing string on a caught AuthError) or a re-thrown error. -/
inductive AuthenticateResult where
  | value (message : Option String)
  | thrown (message : String)
  deriving DecidableEq

/-- authenticate(prevState, formData): maps a caught AuthError of type
CredentialsSignin to one fixed string, every other AuthError type to a generic
string, and re-throws any non-AuthError unchanged. -/
def authenticate (signInResult : SignInOutcome) : AuthenticateResult :=
  match signInResult with
  | .success => .value none
  | .authError ty =>
    if ty = "CredentialsSignin" then .value (some "Invalid credentials.")
    else .value (some "Something went wrong.")
  | .otherError m => .thrown m

/-! ## Sample data used by concrete instances -/

/-- A sample customer for concrete page-count instances. -/
def sampleCustomer : Customer := ⟨"c1", "Alice", "alice@mail.com", "/img.png"⟩

/-- Thirteen invoices of the sample customer, all matching the empty query. -/
def sampleInvoices13 : List InvoiceRow :=
  List.replicate 13 ⟨"i1", "c1", 100, "pending", "2024-01-01"⟩

/-! ## Helper lemmas -/

theorem mem_insertByDateDesc {x a : JoinedInvoice} {l : List JoinedInvoice} :
    x ∈ insertByDateDesc a l ↔ x = a ∨ x ∈ l := by
  induction l with
  | nil => simp [insertByDateDesc]
  | cons b t ih =>
    rw [insertByDateDesc]
    by_cases h : b.date ≤ a.date
    · rw [if_pos h]
      simp [or_comm, or_left_comm]
    · rw [if_neg h]
      simp only [List.mem_cons, ih]
      tauto

theorem pairwise_insertByDateDesc {a : JoinedInvoice} {l : List JoinedInvoice}
    (hl : l.Pairwise fun u v => v.date ≤ u.date) :
    (insertByDateDesc a l).Pairwise fun u v => v.date ≤ u.date := by
  induction l with
  | nil => simp [insertByDateDesc]
  | cons b t ih =>
    rcases List.pairwise_cons.1 hl with ⟨hb, ht⟩
    rw [insertByDateDesc]
    by_cases h : b.date ≤ a.date
    · rw [if_pos h]
      refine List.pairwise_cons.2 ⟨?_, hl⟩
      intro y hy
      rcases List.mem_cons.1 hy with rfl | hyt
      · exact h
      · exact le_trans (hb y hyt) h
    · rw [if_neg h]
      refine List.pairwise_cons.2 ⟨?_, ih ht⟩
      intro y hy
      rcases mem_insertByDateDesc.1 hy with rfl | hyt
      · exact le_of_not_le h
      · exact hb y hyt

theorem mem_sortByDateDesc {x : JoinedInvoice} {l : List JoinedInvoice} :
    x ∈ sortByDateDesc l ↔ x ∈ l := by
  induction l with
  | nil => simp [sortByDateDesc]
  | cons a t ih =>
    rw [sortByDateDesc]
    simp only [mem_insertByDateDesc, ih, List.mem_cons]

theorem pairwise_sortByDateDesc (l : List JoinedInvoice) :
    (sortByDateDesc l).Pairwise fun u v => v.date ≤ u.date := by
  induction l with
  | nil => simp [sortByDateDesc]
  | cons a t ih =>
    rw [sortByDateDesc]
    exact pairwise_insertByDateDesc ih

theorem toNat_ceil_div_six (n : ℕ) : Int.toNat ⌈(n : ℚ) / 6⌉ = (n + 5) / 6 := by
  have hmod := Nat.div_add_mod (n + 5) 6
  have hlt : (n + 5) % 6 < 6 := Nat.mod_lt _ (by norm_num)
  have hA : n ≤ 6 * ((n + 5) / 6) := by omega
  have hB : 6 * ((n + 5) / 6) ≤ n + 5 := by omega
  have hAq : (n : ℚ) ≤ 6 * ((((n + 5) / 6 : ℕ) : ℤ) : ℚ) := by exact_mod_cast hA
  have hBq : 6 * ((((n + 5) / 6 : ℕ) : ℤ) : ℚ) ≤ (n : ℚ) + 5 := by exact_mod_cast hB
  have hceil : ⌈(n : ℚ) / 6⌉ = (((n + 5) / 6 : ℕ) : ℤ) := by
    rw [Int.ceil_eq_iff]
    refine ⟨?_, ?_⟩
    · rw [lt_div_iff₀ (by norm_num : (0:ℚ) < 6)]
      linarith
    · rw [div_le_iff₀ (by norm_num : (0:ℚ) < 6)]
      linarith
  rw [hceil, Int.toNat_natCast]

/-! ## Claim theorems -/

/-- C5: authenticate maps a CredentialsSignin AuthError to the fixed
invalid-credentials string, every other AuthError type to the single generic
string, and re-throws any non-AuthError unchanged. -/
theorem authenticate_error_mapping :
    (∀ ty : String, ty = "CredentialsSignin" →
      authenticate (.authError ty) = .value (some "Invalid credentials.")) ∧
    (∀ ty : String, ty ≠ "CredentialsSignin" →
      authenticate (.authError ty) = .value (some "Something went wrong.")) ∧
    (∀ m : String, authenticate (.otherError m) = .thrown m) := by
  refine ⟨?_, ?_, fun m => rfl⟩
  · intro ty h
    simp [authenticate, h]
  · intro ty h
    simp [authenticate, h]

/-- Witness for C5 at the AuthError types CredentialsSignin and AccessDenied
and at a concrete re-thrown framework error. -/
theorem authenticate_error_mapping_witness :
    authenticate (.authError "CredentialsSignin") = .value (some "Invalid credentials.") ∧
    authenticate (.authError "AccessDenied") = .value (some "Something went wrong.") ∧
    authenticate (.otherError "NEXT_REDIRECT") = .thrown "NEXT_REDIRECT" :=
  ⟨authenticate_error_mapping.1 "CredentialsSignin" rfl,
   authenticate_error_mapping.2.1 "AccessDenied" (by decide),
   authenticate_error_mapping.2.2 "NEXT_REDIRECT"⟩

/-- C8: deleteInvoice removes exactly the rows with the given id, revalidates
the invoices listing and returns the confirmation message; on a database
failure it returns the database-error message without revalidating, without
redirecting and without throwing, leaving the table unchanged. -/
theorem deleteInvoice_behavior :
    ∀ (invoices : List InvoiceRecord) (id : String),
      deleteInvoice false invoices id =
        ⟨"Deleted Invoice", invoices.filter (fun r => !(r.id == id)), true, false⟩ ∧
      (∀ r ∈ (deleteInvoice false invoices id).invoices, r.id ≠ id ∧ r ∈ invoices) ∧
      (∀ r ∈ invoices, r.id ≠ id → r ∈ (deleteInvoice false invoices id).invoices) ∧
      deleteInvoice true invoices id =
        ⟨"Database Error: Failed to Delete Invoice.", invoices, false, false⟩ := by
  intro invoices id
  refine ⟨rfl, ?_, ?_, rfl⟩
  · intro r hr
    have hr2 : r ∈ invoices.filter (fun r => !(r.id == id)) := hr
    rcases List.mem_filter.1 hr2 with ⟨h1, h2⟩
    refine ⟨?_, h1⟩
    simpa using h2
  · intro r hr hne
    show r ∈ invoices.filter (fun r => !(r.id == id))
    exact List.mem_filter.2 ⟨hr, by simpa using hne⟩

/-- Witness for C8 on a concrete two-row table: the matching row disappears,
the other row survives, and the failure case reports without redirecting. -/
theorem deleteInvoice_behavior_witness :
    ((⟨"keep", "c1", 5, "paid", "2024-01-01"⟩ : InvoiceRecord) ∈
      (deleteInvoice false
        [⟨"keep", "c1", 5, "paid", "2024-01-01"⟩, ⟨"gone", "c2", 7, "pending", "2024-01-02"⟩]
        "gone").invoices) ∧
    deleteInvoice true
        [⟨"keep", "c1", 5, "paid", "2024-01-01"⟩, ⟨"gone", "c2", 7, "pending", "2024-01-02"⟩]
        "gone" =
      ⟨"Database Error: Failed to Delete Invoice.",
        [⟨"keep", "c1", 5, "paid", "2024-01-01"⟩, ⟨"gone", "c2", 7, "pending", "2024-01-02"⟩],
        false, false⟩ :=
  ⟨(deleteInvoice_behavior
      [⟨"keep", "c1", 5, "paid", "2024-01-01"⟩, ⟨"gone", "c2", 7, "pending", "2024-01-02"⟩]
      "gone").2.2.1 ⟨"keep", "c1", 5, "paid", "2024-01-01"⟩ (by decide) (by decide),
   (deleteInvoice_behavior
      [⟨"keep", "c1", 5, "paid", "2024-01-01"⟩, ⟨"gone", "c2", 7, "pending", "2024-01-02"⟩]
      "gone").2.2.2⟩

/-- C9: on an empty invoices table both SUM aggregates are SQL NULL, yet
fetchCardData returns a well-defined record: both totals are the
currency-formatted value of 0 and both counts are natural numbers. -/
theorem fetchCardData_empty_table_safe :
    ∀ customers : List Customer,
      sumAmountsWithStatus [] "paid" = none ∧
      sumAmountsWithStatus [] "pending" = none ∧
      fetchCardData false [] customers =
        .ok ⟨customers.length, 0, formatCurrency 0, formatCurrency 0⟩ := by
  intro customers
  refine ⟨rfl, rfl, ?_⟩
  simp [fetchCardData, sumAmountsWithStatus, Option.getD]

/-- C6: fetchInvoiceById returns undefined (none) rather than throwing when
no row has the id, and otherwise returns the matching row with its stored
cents amount divided by 100. -/
theorem fetchInvoiceById_undefined_or_dollars :
    ∀ (invoices : List InvoiceRow) (id : String),
      (invoices.filter (fun r => r.id == id) = [] →
        fetchInvoiceById false invoices id = .ok none) ∧
      (∀ r rest, invoices.filter (fun r => r.id == id) = r :: rest →
        fetchInvoiceById false invoices id =
          .ok (some ⟨r.id, r.customer_id, (r.amount : ℚ) / 100, r.status⟩)) := by
  intro invoices id
  constructor
  · intro h
    simp [fetchInvoiceById, h]
  · intro r rest h
    simp [fetchInvoiceById, h]

/-- Witness for C6: a missing id yields none, a present id yields the row
with amount 150 cents read back as 150 / 100 dollars. -/
theorem fetchInvoiceById_undefined_or_dollars_witness :
    fetchInvoiceById false [⟨"i1", "c1", 150, "pending", "2024-01-01"⟩] "nope" = .ok none ∧
    fetchInvoiceById false [⟨"i1", "c1", 150, "pending", "2024-01-01"⟩] "i1" =
      .ok (some ⟨"i1", "c1", ((150 : ℤ) : ℚ) / 100, "pending"⟩) :=
  ⟨(fetchInvoiceById_undefined_or_dollars [⟨"i1", "c1", 150, "pending", "2024-01-01"⟩] "nope").1
      (by decide),
   (fetchInvoiceById_undefined_or_dollars [⟨"i1", "c1", 150, "pending", "2024-01-01"⟩] "i1").2
      ⟨"i1", "c1", 150, "pending", "2024-01-01"⟩ [] (by decide)⟩

/-- C4: authorize returns null on schema failure, null when no user row
matches the email, and otherwise returns the user record exactly when the
supplied password matches the stored hash under the hash comparison. -/
theorem authorize_credential_flow :
    (∀ (bcmp : String → String → Bool) (users : List User) (c : Credentials),
      parseCredentials c = none → authorize bcmp false users c = .ok none) ∧
    (∀ (bcmp : String → String → Bool) (users : List User) (c : Credentials)
      (e p : String), parseCredentials c = some (e, p) →
      (users.filter (fun u => u.email == e)).head? = none →
      authorize bcmp false users c = .ok none) ∧
    (∀ (bcmp : String → String → Bool) (users : List User) (c : Credentials)
      (e p : String) (u : User), parseCredentials c = some (e, p) →
      (users.filter (fun u => u.email == e)).head? = some u →
      authorize bcmp false users c = .ok (if bcmp p u.password then some u else none)) := by
  refine ⟨?_, ?_, ?_⟩
  · intro bcmp users c h
    simp [authorize, h]
  · intro bcmp users c e p h1 h2
    simp [authorize, getUser, h1, h2]
  · intro bcmp users c e p u h1 h2
    simp only [authorize, getUser, h1, if_neg Bool.false_ne_true, h2]
    by_cases hb : bcmp p u.password <;> simp [hb]

/-- Witness for C4 with one stored user: malformed email gives null, unknown
email gives null, and a matching email resolves through the hash comparison. -/
theorem authorize_credential_flow_witness :
    authorize (fun p h => p == h) false [⟨"u1", "User", "a@b.co", "123456"⟩]
        ⟨some "bad", some "123456"⟩ = .ok none ∧
    authorize (fun p h => p == h) false [⟨"u1", "User", "a@b.co", "123456"⟩]
        ⟨some "z@y.co", some "123456"⟩ = .ok none ∧
    authorize (fun p h => p == h) false [⟨"u1", "User", "a@b.co", "123456"⟩]
        ⟨some "a@b.co", some "123456"⟩ =
      .ok (if ("123456" : String) == "123456"
        then some (⟨"u1", "User", "a@b.co", "123456"⟩ : User) else none) :=
  ⟨authorize_credential_flow.1 (fun p h => p == h) [⟨"u1", "User", "a@b.co", "123456"⟩]
      ⟨some "bad", some "123456"⟩ rfl,
   authorize_credential_flow.2.1 (fun p h => p == h) [⟨"u1", "User", "a@b.co", "123456"⟩]
      ⟨some "z@y.co", some "123456"⟩ "z@y.co" "123456" rfl rfl,
   authorize_credential_flow.2.2 (fun p h => p == h) [⟨"u1", "User", "a@b.co", "123456"⟩]
      ⟨some "a@b.co", some "123456"⟩ "a@b.co" "123456" ⟨"u1", "User", "a@b.co", "123456"⟩
      rfl rfl⟩

/-- C10: with well-formed credentials a failing user lookup makes authorize
propagate the wrapped lookup error instead of returning null, so a null
result always means rejected credentials: bad shape, unknown email, or a
wrong password. -/
theorem authorize_null_means_rejected :
    (∀ (bcmp : String → String → Bool) (users : List User) (c : Credentials)
      (e p : String), parseCredentials c = some (e, p) →
      authorize bcmp true users c = .error "Failed to fetch user.") ∧
    (∀ (bcmp : String → String → Bool) (dbFails : Bool) (users : List User)
      (c : Credentials), authorize bcmp dbFails users c = .ok none →
      parseCredentials c = none ∨
      ∃ e p, parseCredentials c = some (e, p) ∧
        ((users.filter (fun u => u.email == e)).head? = none ∨
         ∃ u, (users.filter (fun u => u.email == e)).head? = some u ∧
           bcmp p u.password = false)) := by
  constructor
  · intro bcmp users c e p h
    simp [authorize, getUser, h]
  · intro bcmp dbFails users c h
    rcases hp : parseCredentials c with _ | ⟨e, p⟩
    · exact Or.inl rfl
    · right
      refine ⟨e, p, rfl, ?_⟩
      cases dbFails with
      | true =>
        exfalso
        simp [authorize, getUser, hp] at h
      | false =>
        rcases hu : (users.filter (fun u => u.email == e)).head? with _ | u
        · exact Or.inl hu
        · right
          refine ⟨u, hu, ?_⟩
          by_cases hb : bcmp p u.password
          · exfalso
            simp [authorize, getUser, hp, hu, hb] at h
          · simpa using hb

/-- Witness for C10: with the lookup failing the wrapped error comes back,
and a concrete null result (wrong password) is classified by the theorem. -/
theorem authorize_null_means_rejected_witness :
    authorize (fun p h => p == h) true [] ⟨some "a@b.co", some "123456"⟩ =
      .error "Failed to fetch user." ∧
    (parseCredentials ⟨some "a@b.co", some "999999"⟩ = none ∨
     ∃ e p, parseCredentials ⟨some "a@b.co", some "999999"⟩ = some (e, p) ∧
       ((([⟨"u1", "User", "a@b.co", "123456"⟩] : List User).filter
           (fun u => u.email == e)).head? = none ∨
        ∃ u, (([⟨"u1", "User", "a@b.co", "123456"⟩] : List User).filter
            (fun u => u.email == e)).head? = some u ∧
          ((fun (p h : String) => p == h) p u.password) = false)) :=
  ⟨authorize_null_means_rejected.1 (fun p h => p == h) [] ⟨some "a@b.co", some "123456"⟩
      "a@b.co" "123456" rfl,
   authorize_null_means_rejected.2 (fun p h => p == h) false
      [⟨"u1", "User", "a@b.co", "123456"⟩] ⟨some "a@b.co", some "999999"⟩ rfl⟩

/-- C2: fetchInvoicesPages returns the ceiling of the matching-row count
divided by 6, which is (count + 5) / 6 in natural division; thirteen matching
rows give 3 pages and zero matching rows give 0 pages. -/
theorem fetchInvoicesPages_ceil_pageCount :
    (∀ (invoices : List InvoiceRow) (customers : List Customer) (query : String),
      fetchInvoicesPages false invoices customers query =
        .ok ((((joinInvoicesCustomers invoices customers).filter
          (invoiceMatches query)).length + 5) / 6)) ∧
    fetchInvoicesPages false sampleInvoices13 [sampleCustomer] "" = .ok 3 ∧
    fetchInvoicesPages false [] [] "anything" = .ok 0 := by
  have key : ∀ (invoices : List InvoiceRow) (customers : List Customer) (query : String),
      fetchInvoicesPages false invoices customers query =
        .ok ((((joinInvoicesCustomers invoices customers).filter
          (invoiceMatches query)).length + 5) / 6) := by
    intro invoices customers query
    simp only [fetchInvoicesPages, if_neg Bool.false_ne_true]
    refine congrArg Except.ok ?_
    rw [show ((ITEMS_PER_PAGE : ℕ) : ℚ) = 6 by norm_num [ITEMS_PER_PAGE]]
    exact toNat_ceil_div_six _
  refine ⟨key, ?_, ?_⟩
  · rw [key]
    exact congrArg Except.ok (by decide)
  · rw [key]
    exact congrArg Except.ok (by decide)

/-- C3: any validation failure makes createInvoice and updateInvoice return
the structured field-error map with a message, issue no SQL statement and
leave the invoices table unchanged; in particular a coerced amount that is
not greater than 0 always fails validation with the amount error. -/
theorem invalid_form_rejected_without_db :
    (∀ (dbFails : Bool) (today newId id : String) (invoices : List InvoiceRecord)
      (form : RawForm) (e : FieldErrors),
      safeParseInvoiceForm form = .error e →
      createInvoice dbFails today newId invoices form =
        ⟨.formError e "Missing Fields. Failed to Create Invoice.", invoices, 0, false⟩ ∧
      updateInvoice dbFails id invoices form =
        ⟨.formError e "Missing Fields. Failed to Update Invoice.", invoices, 0, false⟩) ∧
    (∀ (form : RawForm) (q : ℚ), jsNumber form.amount = some q → q ≤ 0 →
      ∃ e, safeParseInvoiceForm form = .error e ∧
        e.amount = ["Please enter an amount greater than $0."]) := by
  constructor
  · intro dbFails today newId id invoices form e h
    exact ⟨by simp [createInvoice, h], by simp [updateInvoice, h]⟩
  · intro form q hq hle
    have hv : validateAmount form.amount =
        .error ["Please enter an amount greater than $0."] := by
      unfold validateAmount
      rw [hq]
      exact if_neg (not_lt.2 hle)
    refine ⟨⟨zodErrors (validateCustomerId form.customerId),
      ["Please enter an amount greater than $0."],
      zodErrors (validateStatus form.status)⟩, ?_, rfl⟩
    unfold safeParseInvoiceForm
    rw [hv]
    rcases validateCustomerId form.customerId with ec | c <;>
      rcases validateStatus form.status with es | s <;> rfl

/-- Witness for C3 at the concrete form with amount 0: both actions return
the amount field error, attempt no SQL statement and keep the table. -/
theorem invalid_form_rejected_without_db_witness :
    (createInvoice true "2024-01-01" "i9" [] ⟨some "c1", some "0", some "paid"⟩ =
       ⟨.formError ⟨[], ["Please enter an amount greater than $0."], []⟩
         "Missing Fields. Failed to Create Invoice.", [], 0, false⟩ ∧
     updateInvoice true "i1" [] ⟨some "c1", some "0", some "paid"⟩ =
       ⟨.formError ⟨[], ["Please enter an amount greater than $0."], []⟩
         "Missing Fields. Failed to Update Invoice.", [], 0, false⟩) ∧
    (∃ e, safeParseInvoiceForm ⟨some "c1", some "0", some "paid"⟩ = .error e ∧
      e.amount = ["Please enter an amount greater than $0."]) :=
  ⟨invalid_form_rejected_without_db.1 true "2024-01-01" "i9" "i1" []
      ⟨some "c1", some "0", some "paid"⟩
      ⟨[], ["Please enter an amount greater than $0."], []⟩ rfl,
   invalid_form_rejected_without_db.2 ⟨some "c1", some "0", some "paid"⟩ ((0 : ℕ) : ℚ)
      rfl (by decide)⟩

/-- C1 (amended): for every form input that passes validation, createInvoice
and updateInvoice store the amount field as exactly dollars times 100 cents,
with no rounding applied, and createInvoice additionally stamps the current
date (the today parameter, standing for the date-only prefix of the current
ISO timestamp) in the inserted row. -/
theorem createInvoice_updateInvoice_store_exact_cents :
    ∀ (today newId id : String) (invoices : List InvoiceRecord) (form : RawForm)
      (p : ParsedInvoiceForm), safeParseInvoiceForm form = .ok p →
      (createInvoice false today newId invoices form).outcome =
        .redirected "/dashboard/invoices" ∧
      (createInvoice false today newId invoices form).invoices =
        invoices ++ [⟨newId, p.customerId, p.amount * 100, p.status, today⟩] ∧
      (updateInvoice false id invoices form).invoices =
        invoices.map (fun r =>
          if r.id = id then ⟨r.id, p.customerId, p.amount * 100, p.status, r.date⟩
          else r) := by
  intro today newId id invoices form p h
  refine ⟨?_, ?_, ?_⟩ <;> simp [createInvoice, updateInvoice, h]

/-- Witness for C1 (amended) at the validated form with amount 12: the
inserted row carries 1200 cents and the submitted date. -/
theorem createInvoice_updateInvoice_store_exact_cents_witness :
    (createInvoice false "2024-01-01" "inv1" [] ⟨some "c1", some "12", some "paid"⟩).outcome =
      .redirected "/dashboard/invoices" ∧
    (createInvoice false "2024-01-01" "inv1" [] ⟨some "c1", some "12", some "paid"⟩).invoices =
      [] ++ [⟨"inv1", "c1", ((12 : ℕ) : ℚ) * 100, "paid", "2024-01-01"⟩] ∧
    (updateInvoice false "inv1" [] ⟨some "c1", some "12", some "paid"⟩).invoices =
      ([] : List InvoiceRecord).map (fun r =>
        if r.id = "inv1" then ⟨r.id, "c1", ((12 : ℕ) : ℚ) * 100, "paid", r.date⟩
        else r) :=
  createInvoice_updateInvoice_store_exact_cents "2024-01-01" "inv1" "inv1" []
    ⟨some "c1", some "12", some "paid"⟩ ⟨"c1", ((12 : ℕ) : ℚ), "paid"⟩ rfl

/-- Counterexample to C1 as stated: the validated amount 3.335 dollars is
stored as exactly 333.5 cents, while round(3.335 * 100) = 334; the code
multiplies by 100 without rounding. -/
theorem createInvoice_rounding_claim_false :
    jsNumber (some "3.335") = some ((667 : ℚ) / 200) ∧
    (createInvoice false "2024-01-01" "inv1" []
        ⟨some "c1", some "3.335", some "pending"⟩).invoices.map InvoiceRecord.amount =
      [(667 : ℚ) / 2] ∧
    (round ((667 : ℚ) / 200 * 100) : ℤ) = 334 ∧
    ((667 : ℚ) / 2) ≠ ((334 : ℤ) : ℚ) := by
  have h0 : jsNumber (some "3.335") =
      some (((3 : ℕ) : ℚ) + ((335 : ℕ) : ℚ) / ((10 : ℚ) ^ 3)) := rfl
  have hval : (((3 : ℕ) : ℚ) + ((335 : ℕ) : ℚ) / ((10 : ℚ) ^ 3)) = (667 : ℚ) / 200 := by
    norm_num
  have hv : validateAmount (some "3.335") =
      .ok (((3 : ℕ) : ℚ) + ((335 : ℕ) : ℚ) / ((10 : ℚ) ^ 3)) := by
    unfold validateAmount
    rw [h0]
    exact if_pos (by rw [hval]; norm_num)
  have hp : safeParseInvoiceForm ⟨some "c1", some "3.335", some "pending"⟩ =
      .ok ⟨"c1", ((3 : ℕ) : ℚ) + ((335 : ℕ) : ℚ) / ((10 : ℚ) ^ 3), "pending"⟩ := by
    unfold safeParseInvoiceForm
    rw [hv]
    rfl
  refine ⟨by rw [h0, hval], ?_, ?_, by norm_num⟩
  · simp only [createInvoice, hp, if_neg Bool.false_ne_true, List.nil_append,
      List.map_cons, List.map_nil, List.cons.injEq, and_true]
    rw [hval]
    norm_num
  · rw [round_eq, show (667 : ℚ) / 200 * 100 + 1 / 2 = ((334 : ℤ) : ℚ) by norm_num]
    exact Int.floor_intCast 334

/-- C7: fetchFilteredInvoices returns the page of matching joined rows
ordered by date descending, skipping exactly (page - 1) * 6 rows and
returning at most 6 of them. -/
theorem fetchFilteredInvoices_pagination :
    ∀ (invoices : List InvoiceRow) (customers : List Customer) (query : String)
      (page : ℤ), 1 ≤ page →
      ∃ l, fetchFilteredInvoices false invoices customers query page = .ok l ∧
        l = ((sortByDateDesc ((joinInvoicesCustomers invoices customers).filter
          (invoiceMatches query))).drop ((page - 1) * 6).toNat).take 6 ∧
        l.length ≤ 6 ∧
        (∀ r ∈ l, invoiceMatches query r = true ∧
          r ∈ joinInvoicesCustomers invoices customers) ∧
        l.Pairwise (fun a b => b.date ≤ a.date) := by
  intro invoices customers query page hpage
  have hnn : (0 : ℤ) ≤ (page - 1) * (ITEMS_PER_PAGE : ℤ) :=
    mul_nonneg (by linarith) (by norm_num [ITEMS_PER_PAGE])
  have hcond : ¬((false : Bool) = true ∨ (page - 1) * (ITEMS_PER_PAGE : ℤ) < 0) := by
    rintro (h | h)
    · exact Bool.false_ne_true h
    · exact absurd h (not_lt.2 hnn)
  refine ⟨_, ?_, rfl, ?_, ?_, ?_⟩
  · show fetchFilteredInvoices false invoices customers query page = _
    simp only [fetchFilteredInvoices]
    rw [if_neg hcond]
    rfl
  · exact List.length_take_le _ _
  · intro r hr
    have h1 := List.mem_of_mem_take hr
    have h2 := List.mem_of_mem_drop h1
    have h3 := mem_sortByDateDesc.1 h2
    rcases List.mem_filter.1 h3 with ⟨hmem, hmatch⟩
    exact ⟨hmatch, hmem⟩
  · exact List.Pairwise.sublist
      ((List.take_sublist _ _).trans (List.drop_sublist _ _))
      (pairwise_sortByDateDesc _)

/-- Witness for C7 at page 2 over a concrete two-invoice table: the offset
(page - 1) * 6 = 6 applies and every stated property holds of the result. -/
theorem fetchFilteredInvoices_pagination_witness :
    (1 : ℤ) ≤ 2 ∧
    ∃ l, fetchFilteredInvoices false
        [⟨"i1", "c1", 100, "pending", "2024-01-02"⟩,
         ⟨"i2", "c1", 200, "paid", "2024-01-01"⟩]
        [⟨"c1", "Alice", "a@b.co", "/img.png"⟩] "" 2 = .ok l ∧
      l = ((sortByDateDesc ((joinInvoicesCustomers
          [⟨"i1", "c1", 100, "pending", "2024-01-02"⟩,
           ⟨"i2", "c1", 200, "paid", "2024-01-01"⟩]
          [⟨"c1", "Alice", "a@b.co", "/img.png"⟩]).filter
        (invoiceMatches ""))).drop (((2 : ℤ) - 1) * 6).toNat).take 6 ∧
      l.length ≤ 6 ∧
      (∀ r ∈ l, invoiceMatches "" r = true ∧
        r ∈ joinInvoicesCustomers
          [⟨"i1", "c1", 100, "pending", "2024-01-02"⟩,
           ⟨"i2", "c1", 200, "paid", "2024-01-01"⟩]
          [⟨"c1", "Alice", "a@b.co", "/img.png"⟩]) ∧
      l.Pairwise (fun a b => b.date ≤ a.date) :=
  ⟨by decide,
   fetchFilteredInvoices_pagination
     [⟨"i1", "c1", 100, "pending", "2024-01-02"⟩,
      ⟨"i2", "c1", 200, "paid", "2024-01-01"⟩]
     [⟨"c1", "Alice", "a@b.co", "/img.png"⟩] "" 2 (by decide)⟩
